import Mathlib

/-!
Verification of the frame-classification, hysteresis, calibration and
session-recording engine of `camera.py` (class `VideoCamera`) against its
natural-language specification.

The embedding models the non-I/O logic of `VideoCamera`: the per-frame
decision tree, the consecutive-distracted-frame counter, the stable status
and focus score, the one-shot calibration flag, the distraction-event
history, and the session bookkeeping.  Drawing calls (`cv2.rectangle`,
`cv2.putText`, `cv2.line`), JPEG encoding, snapshot files and uuid
generation are I/O with no influence on any state or return value modelled
here and are omitted.  Python floats are modelled as rationals; `time.time()`
is passed in explicitly as the frame's wall-clock time.
-/

/-- One pose landmark set, reduced to the vertical coordinates the code
reads: `landmarks[0].y` (nose), `landmarks[11].y` and `landmarks[12].y`
(shoulders).  Normalized: 0.0 is the top of the frame, 1.0 the bottom. -/
structure Pose where
  noseY : ℚ
  leftShoulderY : ℚ
  rightShoulderY : ℚ
deriving DecidableEq, Repr

/-- One object detection; only `categories[0].category_name` influences the
engine's state (score and bounding box are used for drawing only). -/
structure Detection where
  category : String
deriving DecidableEq, Repr

/-- The per-frame perceptual input the engine consumes: the pose result
(`pose_result.pose_landmarks`, empty list modelled as `none`) and the
object-detection result. -/
structure FrameSignals where
  pose : Option Pose
  detections : List Detection
deriving DecidableEq, Repr

/-- A closed distraction event as appended to `self.history`:
`timestamp = int(self.distraction_start_time)`, the reason captured at the
start edge, and `duration = time.time() - self.distraction_start_time`.
The `id` (uuid) and `snapshot_url` fields are opaque I/O references with no
role in any computation and are omitted. -/
structure Event where
  timestamp : ℤ
  reason : String
  duration : ℚ
deriving DecidableEq, Repr

/-- A session summary as appended to `self.sessions` by `stop_session`
(the uuid `id` field is omitted). -/
structure SessionSummary where
  start_time : ℤ
  end_time : ℤ
  duration : ℚ
  distraction_count : ℕ
  total_distraction_time : ℚ
  avg_focus_score : ℚ
deriving DecidableEq, Repr

/-- The mutable state of `VideoCamera` (camera handle and ML models are
external collaborators, not state of the decision engine). -/
structure EngineState where
  status : String
  focus_score : ℚ
  distracted_frames : ℕ
  baseline_dist : ℚ
  is_calibrating : Bool
  history : List Event
  sessions : List SessionSummary
  is_currently_distracted : Bool
  distraction_start_time : Option ℚ
  distraction_reason : String
  current_session_start : Option ℚ
  current_session_history_index : Option ℕ
deriving DecidableEq, Repr

/-- Constant `self.DISTRACTION_THRESHOLD = 15`. -/
def DISTRACTION_THRESHOLD : ℕ := 15

/-- The state established by `VideoCamera.__init__`. -/
def initState : EngineState :=
  { status := "FOCUSED"
    focus_score := 100
    distracted_frames := 0
    baseline_dist := 22/100
    is_calibrating := false
    history := []
    sessions := []
    is_currently_distracted := false
    distraction_start_time := none
    distraction_reason := ""
    current_session_start := none
    current_session_history_index := none }

/-- `VideoCamera.calibrate`: set the one-shot calibration flag. -/
def calibrate (s : EngineState) : EngineState :=
  { s with is_calibrating := true }

/-- The blacklist test of the object-analysis loop:
`category in ["cell phone", "mobile phone"]` for some detection. -/
def hasPhone (dets : List Detection) : Bool :=
  dets.any (fun d => d.category == "cell phone" || d.category == "mobile phone")

/-- The whitelist test of the object-analysis loop:
`category in ["book", "laptop"]` for some detection. -/
def hasStudyMaterial (dets : List Detection) : Bool :=
  dets.any (fun d => d.category == "book" || d.category == "laptop")

/-- The decision tree of `get_frame` (lines 139-208): produces the raw
per-frame verdict `(is_distracted, reason)` together with the state after
the calibration side effect that lives inside the posture branch.  Initial
values are `is_distracted = False`, `reason = ""`. -/
def classify (s : EngineState) (f : FrameSignals) : Bool × String × EngineState :=
  if hasPhone f.detections then
    (true, "PHONE", s)
  else if hasStudyMaterial f.detections then
    (false, "STUDYING", s)
  else
    match f.pose with
    | some p =>
      let shoulder_y := (p.leftShoulderY + p.rightShoulderY) / 2
      let s1 :=
        if s.is_calibrating then
          { s with baseline_dist := (shoulder_y - p.noseY) - 5/100,
                   is_calibrating := false }
        else s
      let threshold_val := shoulder_y - s1.baseline_dist
      if p.noseY > threshold_val then
        (true, "POSTURE", s1)
      else
        (false, "", s1)
    | none => (false, "", s)

/-- The raw verdict `(is_distracted, reason)` of the decision tree. -/
def rawVerdict (s : EngineState) (f : FrameSignals) : Bool × String :=
  ((classify s f).1, (classify s f).2.1)

/-- Lines 210-256 of `get_frame`: counter update, state-transition
detection for the event history, and the hysteresis status/score update,
as a function of the raw verdict.  `now` is the value of `time.time()`
during this frame. -/
def hysteresisUpdate (s : EngineState) (is_distracted : Bool) (reason : String)
    (now : ℚ) : EngineState :=
  let frames := if is_distracted then s.distracted_frames + 1 else 0
  let s2 := { s with distracted_frames := frames }
  let s3 :=
    if s2.is_currently_distracted = false ∧ frames > DISTRACTION_THRESHOLD then
      { s2 with is_currently_distracted := true,
                distraction_start_time := some now,
                distraction_reason := reason }
    else if s2.is_currently_distracted = true ∧ frames ≤ DISTRACTION_THRESHOLD then
      let s2a :=
        match s2.distraction_start_time with
        | some t0 =>
          { s2 with history := s2.history ++
              [({ timestamp := ⌊t0⌋, reason := s2.distraction_reason,
                  duration := now - t0 } : Event)] }
        | none => s2
      { s2a with is_currently_distracted := false,
                 distraction_start_time := none,
                 distraction_reason := "" }
    else s2
  if frames > DISTRACTION_THRESHOLD then
    { s3 with status := "DISTRACTED", focus_score := max 0 (s3.focus_score - 1/2) }
  else
    { s3 with status := "FOCUSED", focus_score := min 100 (s3.focus_score + 1/10) }

/-- One successful frame of `get_frame` after `camera.read()` succeeds:
classification, then counter / edge / status / score update. -/
def processSignals (s : EngineState) (f : FrameSignals) (now : ℚ) : EngineState :=
  let c := classify s f
  hysteresisUpdate c.2.2 c.1 c.2.1 now

/-- `VideoCamera.get_frame`: on a failed `camera.read()` it returns
`(b'', "ERROR", 0)` without touching any state; otherwise it processes the
frame and returns `(bytes, self.status, int(self.focus_score))` (the JPEG
bytes are I/O and omitted; `int()` on the non-negative score is `⌊·⌋`). -/
def get_frame (s : EngineState) (cam : Option FrameSignals) (now : ℚ) :
    EngineState × String × ℤ :=
  match cam with
  | none => (s, "ERROR", 0)
  | some f =>
    let s1 := processSignals s f now
    (s1, s1.status, ⌊s1.focus_score⌋)

/-- `VideoCamera.start_session`: unconditionally records the start time and
the current history length as the session's event-window start index. -/
def start_session (s : EngineState) (now : ℚ) : EngineState :=
  { s with current_session_start := some now,
           current_session_history_index := some s.history.length }

/-- `VideoCamera.stop_session`: returns `None` (no summary) when no session
is open; otherwise builds the summary from the events appended since the
remembered history index, appends it to `self.sessions` and clears the
open-session markers. -/
def stop_session (s : EngineState) (now : ℚ) : EngineState × Option SessionSummary :=
  match s.current_session_start with
  | none => (s, none)
  | some t0 =>
    let session_events :=
      match s.current_session_history_index with
      | some i => s.history.drop i
      | none => s.history
    let summary : SessionSummary :=
      { start_time := ⌊t0⌋
        end_time := ⌊now⌋
        duration := now - t0
        distraction_count := session_events.length
        total_distraction_time := (session_events.map (fun e => e.duration)).sum
        avg_focus_score := 100 }
    ({ s with sessions := s.sessions ++ [summary],
              current_session_start := none,
              current_session_history_index := none },
     some summary)

/-- Fold `processSignals` over a list of (frame, time) inputs. -/
def runFrames (s : EngineState) (fs : List (FrameSignals × ℚ)) : EngineState :=
  fs.foldl (fun st p => processSignals st p.1 p.2) s

/-- Iterate `hysteresisUpdate` with a distracted raw verdict `n` times. -/
def distractedRun (s : EngineState) (reason : String) (now : ℚ) (n : ℕ) :
    EngineState :=
  Nat.iterate (fun st => hysteresisUpdate st true reason now) n s

/-- A frame carrying only a phone detection. -/
def phoneFrame : FrameSignals :=
  { pose := none, detections := [{ category := "cell phone" }] }

/-- A frame with no detections and no pose. -/
def emptyFrame : FrameSignals :=
  { pose := none, detections := [] }

example : rawVerdict initState phoneFrame = (true, "PHONE") := by decide

example : (processSignals initState phoneFrame 0).distracted_frames = 1 := by decide

example : (distractedRun initState "PHONE" 0 16).status = "DISTRACTED" := by decide

/-! ## Field-tracking lemmas for the hysteresis / recorder step -/

/-- The counter written by lines 210-215: increment when distracted,
reset to zero otherwise. -/
theorem hysteresisUpdate_frames (s : EngineState) (b : Bool) (r : String) (t : ℚ) :
    (hysteresisUpdate s b r t).distracted_frames =
      if b then s.distracted_frames + 1 else 0 := by
  rcases s with ⟨st, sc, df, bd, ic, hi, ss, icd, dst, dr, cs, ci⟩
  cases b <;> cases icd <;> cases dst <;>
    simp only [hysteresisUpdate] <;> split_ifs <;> rfl

/-- The status written by lines 249-256 is determined by the updated
counter compared against the threshold. -/
theorem hysteresisUpdate_status (s : EngineState) (b : Bool) (r : String) (t : ℚ) :
    (hysteresisUpdate s b r t).status =
      if (if b then s.distracted_frames + 1 else 0) > DISTRACTION_THRESHOLD
      then "DISTRACTED" else "FOCUSED" := by
  rcases s with ⟨st, sc, df, bd, ic, hi, ss, icd, dst, dr, cs, ci⟩
  cases b <;> cases icd <;> cases dst <;>
    simp only [hysteresisUpdate] <;> split_ifs <;> simp_all

/-- The score written by lines 249-256. -/
theorem hysteresisUpdate_score (s : EngineState) (b : Bool) (r : String) (t : ℚ) :
    (hysteresisUpdate s b r t).focus_score =
      if (if b then s.distracted_frames + 1 else 0) > DISTRACTION_THRESHOLD
      then max 0 (s.focus_score - 1/2) else min 100 (s.focus_score + 1/10) := by
  rcases s with ⟨st, sc, df, bd, ic, hi, ss, icd, dst, dr, cs, ci⟩
  cases b <;> cases icd <;> cases dst <;>
    simp only [hysteresisUpdate] <;> split_ifs <;> simp_all

set_option maxHeartbeats 1000000 in
/-- The hysteresis / recorder step never touches calibration or session
bookkeeping fields. -/
theorem hysteresisUpdate_untouched (s : EngineState) (b : Bool) (r : String) (t : ℚ) :
    (hysteresisUpdate s b r t).baseline_dist = s.baseline_dist ∧
    (hysteresisUpdate s b r t).is_calibrating = s.is_calibrating ∧
    (hysteresisUpdate s b r t).current_session_start = s.current_session_start ∧
    (hysteresisUpdate s b r t).current_session_history_index =
      s.current_session_history_index ∧
    (hysteresisUpdate s b r t).sessions = s.sessions := by
  rcases s with ⟨st, sc, df, bd, ic, hi, ss, icd, dst, dr, cs, ci⟩
  cases b <;> cases icd <;> cases dst <;> refine ⟨?_, ?_, ?_, ?_, ?_⟩ <;>
    simp only [hysteresisUpdate] <;> split_ifs <;> rfl

set_option maxHeartbeats 1000000 in
/-- The history either stays or gains exactly one event. -/
theorem hysteresisUpdate_history (s : EngineState) (b : Bool) (r : String) (t : ℚ) :
    (hysteresisUpdate s b r t).history = s.history ∨
      ∃ e, (hysteresisUpdate s b r t).history = s.history ++ [e] := by
  rcases s with ⟨st, sc, df, bd, ic, hi, ss, icd, dst, dr, cs, ci⟩
  cases b <;> cases icd <;> cases dst <;>
    simp only [hysteresisUpdate] <;> split_ifs <;>
      first
      | exact Or.inl rfl
      | exact Or.inr ⟨_, rfl⟩

/-- Running a distracted verdict `n` times adds `n` to the counter. -/
theorem distractedRun_frames (s : EngineState) (r : String) (t : ℚ) (n : ℕ) :
    (distractedRun s r t n).distracted_frames = s.distracted_frames + n := by
  induction n with
  | zero => rfl
  | succ k ih =>
    have h : distractedRun s r t (k + 1) =
        hysteresisUpdate (distractedRun s r t k) true r t :=
      Function.iterate_succ_apply' _ k s
    rw [h, hysteresisUpdate_frames, ih]
    simp [Nat.add_assoc]

/-! ## Concrete frames used by witnesses and counterexamples -/

/-- A frame holding both a phone and a book, with pose present. -/
def phoneAndBookFrame : FrameSignals :=
  { pose := some { noseY := 9/10, leftShoulderY := 1/2, rightShoulderY := 1/2 },
    detections := [{ category := "book" }, { category := "cell phone" }] }

/-- A frame with study material and the nose far below the posture
threshold (0.9 against a threshold of 0.28 for the default baseline). -/
def bookLowNoseFrame : FrameSignals :=
  { pose := some { noseY := 9/10, leftShoulderY := 1/2, rightShoulderY := 1/2 },
    detections := [{ category := "book" }] }

/-! ## C1: classifier priority order -/

/-- C1: for every frame the classifier's verdict follows the priority order
phone > study-material > posture, first match winning: any Phone detection
gives `(distracted, "PHONE")` regardless of simultaneous study material or
posture; otherwise any study-material detection gives
`(not distracted, "STUDYING")` and the posture branch (including its
calibration side effect) is never evaluated, the state being returned
unchanged; and with no pose and no relevant detections the verdict is not
distracted. -/
theorem classifier_priority_order (s : EngineState) (f : FrameSignals) :
    (hasPhone f.detections = true → rawVerdict s f = (true, "PHONE")) ∧
    (hasPhone f.detections = false → hasStudyMaterial f.detections = true →
      rawVerdict s f = (false, "STUDYING") ∧ (classify s f).2.2 = s) ∧
    (hasPhone f.detections = false → hasStudyMaterial f.detections = false →
      f.pose = none → rawVerdict s f = (false, "")) := by
  refine ⟨fun h1 => ?_, fun h1 h2 => ?_, fun h1 h2 h3 => ?_⟩
  · simp [rawVerdict, classify, h1]
  · simp [rawVerdict, classify, h1, h2]
  · simp [rawVerdict, classify, h1, h2, h3]

/-- Witness for `classifier_priority_order`: a phone-plus-book frame is
classified PHONE, a book frame with the nose far below threshold is
classified STUDYING with no state change, and an empty frame is not
distracted. -/
theorem classifier_priority_order_witness :
    rawVerdict initState phoneAndBookFrame = (true, "PHONE") ∧
    (rawVerdict initState bookLowNoseFrame = (false, "STUDYING") ∧
      (classify initState bookLowNoseFrame).2.2 = initState) ∧
    rawVerdict initState emptyFrame = (false, "") :=
  ⟨(classifier_priority_order initState phoneAndBookFrame).1 (by decide),
   (classifier_priority_order initState bookLowNoseFrame).2.1 (by decide) (by decide),
   (classifier_priority_order initState emptyFrame).2.2 (by decide) (by decide) rfl⟩

/-! ## C2: debounce threshold behaviour -/

/-- C2: with `distractedFramesThreshold = 15`, starting from a Focused
state with counter 0, 15 consecutive distracted raw verdicts leave the
stable status Focused and the 16th flips it to Distracted; after any
update the status is Distracted iff the counter strictly exceeds 15; and a
single non-distracted verdict resets the counter to 0 and yields status
Focused on that same evaluation. -/
theorem debounce_threshold (s : EngineState) (r : String) (t : ℚ)
    (h0 : s.distracted_frames = 0) (hst : s.status = "FOCUSED") :
    (distractedRun s r t 15).status = "FOCUSED" ∧
    (distractedRun s r t 16).status = "DISTRACTED" ∧
    (∀ s2 b r2 t2, (hysteresisUpdate s2 b r2 t2).status = "DISTRACTED" ↔
        (hysteresisUpdate s2 b r2 t2).distracted_frames > DISTRACTION_THRESHOLD) ∧
    (∀ s2 r2 t2, (hysteresisUpdate s2 false r2 t2).distracted_frames = 0 ∧
        (hysteresisUpdate s2 false r2 t2).status = "FOCUSED") := by
  have hrun : ∀ n : ℕ, (distractedRun s r t (n + 1)).status =
      if s.distracted_frames + n + 1 > DISTRACTION_THRESHOLD
      then "DISTRACTED" else "FOCUSED" := by
    intro n
    have h : distractedRun s r t (n + 1) =
        hysteresisUpdate (distractedRun s r t n) true r t :=
      Function.iterate_succ_apply' _ n s
    rw [h, hysteresisUpdate_status, distractedRun_frames]
    simp
  refine ⟨?_, ?_, ?_, ?_⟩
  · have h15 := hrun 14
    rw [h0] at h15
    simpa [DISTRACTION_THRESHOLD] using h15
  · have h16 := hrun 15
    rw [h0] at h16
    simpa [DISTRACTION_THRESHOLD] using h16
  · intro s2 b r2 t2
    rw [hysteresisUpdate_status, hysteresisUpdate_frames]
    constructor
    · intro hs
      by_contra hC
      rw [if_neg hC] at hs
      exact absurd hs (by decide)
    · intro hC
      rw [if_pos hC]
  · intro s2 r2 t2
    refine ⟨?_, ?_⟩
    · rw [hysteresisUpdate_frames]
      simp
    · rw [hysteresisUpdate_status]
      simp [DISTRACTION_THRESHOLD]

/-- Witness for `debounce_threshold` at the initial engine state. -/
theorem debounce_threshold_witness :
    (distractedRun initState "PHONE" 0 15).status = "FOCUSED" ∧
    (distractedRun initState "PHONE" 0 16).status = "DISTRACTED" :=
  ⟨(debounce_threshold initState "PHONE" 0 rfl rfl).1,
   (debounce_threshold initState "PHONE" 0 rfl rfl).2.1⟩

/-! ## C10: camera read failure -/

/-- C10: when the camera read fails, `get_frame` returns the empty-frame
result with status `"ERROR"` (a value outside the documented
Focused/Distracted enum) and score 0, and leaves the entire engine state
unchanged. -/
theorem get_frame_read_failure (s : EngineState) (now : ℚ) :
    get_frame s none now = (s, "ERROR", 0) ∧
    "ERROR" ≠ "FOCUSED" ∧ "ERROR" ≠ "DISTRACTED" :=
  ⟨rfl, by decide, by decide⟩

/-! ## C3: focus score bounds -/

/-- Fold `get_frame` over a list of camera inputs (read result, time). -/
def runCamera (s : EngineState) (inputs : List (Option FrameSignals × ℚ)) :
    EngineState :=
  inputs.foldl (fun st p => (get_frame st p.1 p.2).1) s

set_option maxHeartbeats 1000000 in
/-- The decision tree writes only `baseline_dist` and `is_calibrating`;
every other field survives classification unchanged. -/
theorem classify_untouched (s : EngineState) (f : FrameSignals) :
    (classify s f).2.2.status = s.status ∧
    (classify s f).2.2.focus_score = s.focus_score ∧
    (classify s f).2.2.distracted_frames = s.distracted_frames ∧
    (classify s f).2.2.history = s.history ∧
    (classify s f).2.2.sessions = s.sessions ∧
    (classify s f).2.2.is_currently_distracted = s.is_currently_distracted ∧
    (classify s f).2.2.distraction_start_time = s.distraction_start_time ∧
    (classify s f).2.2.distraction_reason = s.distraction_reason ∧
    (classify s f).2.2.current_session_start = s.current_session_start ∧
    (classify s f).2.2.current_session_history_index =
      s.current_session_history_index := by
  rcases f with ⟨po, dets⟩
  cases po <;>
    refine ⟨?_, ?_, ?_, ?_, ?_, ?_, ?_, ?_, ?_, ?_⟩ <;>
    simp only [classify] <;> split_ifs <;> rfl

/-- Every processed frame updates the score by exactly the hysteresis rule:
minus one half (floored at 0) when the new stable status is Distracted,
plus one tenth (capped at 100) when it is Focused. -/
theorem processSignals_score_step (s : EngineState) (f : FrameSignals) (t : ℚ) :
    ((processSignals s f t).status = "DISTRACTED" ∧
      (processSignals s f t).focus_score = max 0 (s.focus_score - 1/2)) ∨
    ((processSignals s f t).status = "FOCUSED" ∧
      (processSignals s f t).focus_score = min 100 (s.focus_score + 1/10)) := by
  have hfs := (classify_untouched s f).2.1
  unfold processSignals
  rw [hysteresisUpdate_status, hysteresisUpdate_score, hfs]
  split_ifs <;>
    first
    | exact Or.inl ⟨rfl, rfl⟩
    | exact Or.inr ⟨rfl, rfl⟩

/-- One hysteresis score step keeps the score inside `[0, 100]`. -/
theorem score_step_bounds (x : ℚ) (h0 : 0 ≤ x) (h1 : x ≤ 100) :
    (0 ≤ max 0 (x - 1/2) ∧ max 0 (x - 1/2) ≤ 100) ∧
    (0 ≤ min 100 (x + 1/10) ∧ min 100 (x + 1/10) ≤ 100) := by
  refine ⟨⟨le_max_left 0 _, max_le (by norm_num) (by linarith)⟩,
          ⟨le_min (by norm_num) (by linarith), min_le_left _ _⟩⟩

/-- The score bound is preserved by any run of camera inputs. -/
theorem runCamera_score_bounds (inputs : List (Option FrameSignals × ℚ)) :
    ∀ s : EngineState, 0 ≤ s.focus_score → s.focus_score ≤ 100 →
      0 ≤ (runCamera s inputs).focus_score ∧
        (runCamera s inputs).focus_score ≤ 100 := by
  induction inputs with
  | nil => exact fun s h0 h1 => ⟨h0, h1⟩
  | cons p rest ih =>
    intro s h0 h1
    rcases p with ⟨cam, t⟩
    cases cam with
    | none => exact ih s h0 h1
    | some f =>
      have hstep : runCamera s ((some f, t) :: rest) =
          runCamera (processSignals s f t) rest := rfl
      rw [hstep]
      rcases processSignals_score_step s f t with ⟨_, hsc⟩ | ⟨_, hsc⟩
      · refine ih _ ?_ ?_ <;> rw [hsc]
        · exact (score_step_bounds s.focus_score h0 h1).1.1
        · exact (score_step_bounds s.focus_score h0 h1).1.2
      · refine ih _ ?_ ?_ <;> rw [hsc]
        · exact (score_step_bounds s.focus_score h0 h1).2.1
        · exact (score_step_bounds s.focus_score h0 h1).2.2

/-- C3: starting from the initial score of 100, `focusScore` stays within
`[0, 100]` after every sequence of frames; every processed frame decreases
it by 0.5 floored at 0 when the stable status is Distracted and increases
it by 0.1 capped at 100 otherwise. -/
theorem focus_score_invariant (inputs : List (Option FrameSignals × ℚ)) :
    initState.focus_score = 100 ∧
    (0 ≤ (runCamera initState inputs).focus_score ∧
      (runCamera initState inputs).focus_score ≤ 100) ∧
    (∀ s f t, ((processSignals s f t).status = "DISTRACTED" ∧
        (processSignals s f t).focus_score = max 0 (s.focus_score - 1/2)) ∨
      ((processSignals s f t).status = "FOCUSED" ∧
        (processSignals s f t).focus_score = min 100 (s.focus_score + 1/10))) :=
  ⟨rfl, runCamera_score_bounds inputs initState (by decide) (by decide),
   fun s f t => processSignals_score_step s f t⟩

/-! ## C7: posture rule -/

set_option maxHeartbeats 1000000 in
/-- Characterization of the posture branch of the decision tree, shared by
several results below: `b` is the baseline in effect for the frame. -/
theorem classify_posture_spec (s : EngineState) (f : FrameSignals) (p : Pose) (b : ℚ)
    (hph : hasPhone f.detections = false)
    (hsm : hasStudyMaterial f.detections = false)
    (hp : f.pose = some p)
    (hb : b = if s.is_calibrating
              then ((p.leftShoulderY + p.rightShoulderY) / 2 - p.noseY) - 5/100
              else s.baseline_dist) :
    (classify s f).2.2.baseline_dist = b ∧
    (p.noseY > (p.leftShoulderY + p.rightShoulderY) / 2 - b →
      rawVerdict s f = (true, "POSTURE")) ∧
    (¬ p.noseY > (p.leftShoulderY + p.rightShoulderY) / 2 - b →
      rawVerdict s f = (false, "")) := by
  subst hb
  rcases f with ⟨po, dets⟩
  simp only at hph hsm hp
  subst hp
  by_cases hc : s.is_calibrating <;>
    refine ⟨?_, fun hn => ?_, fun hn => ?_⟩ <;>
    simp_all [rawVerdict, classify, hph, hsm, hc] <;>
    split_ifs with h <;>
    first
    | rfl
    | exact absurd h hn
    | exact absurd h (not_lt.mpr hn)
    | simp_all

/-- C7: on a frame with pose data and neither phone nor study-material
detections, the posture verdict compares `noseY` against
`thresholdY = shoulderY - baselineOffset` with
`shoulderY = (leftShoulderY + rightShoulderY) / 2`, where `baselineOffset`
is the baseline in effect for this frame (the stored one, or the freshly
recalibrated one when the calibration flag was armed): the verdict is
distracted with reason `"POSTURE"` exactly when `noseY > thresholdY`, and
not distracted with the empty reason otherwise. -/
theorem posture_rule (s : EngineState) (f : FrameSignals) (p : Pose) (b : ℚ)
    (hph : hasPhone f.detections = false)
    (hsm : hasStudyMaterial f.detections = false)
    (hp : f.pose = some p)
    (hb : b = if s.is_calibrating
              then ((p.leftShoulderY + p.rightShoulderY) / 2 - p.noseY) - 5/100
              else s.baseline_dist) :
    (classify s f).2.2.baseline_dist = b ∧
    (p.noseY > (p.leftShoulderY + p.rightShoulderY) / 2 - b →
      rawVerdict s f = (true, "POSTURE")) ∧
    (¬ p.noseY > (p.leftShoulderY + p.rightShoulderY) / 2 - b →
      rawVerdict s f = (false, "")) :=
  classify_posture_spec s f p b hph hsm hp hb

/-- A frame with pose only, nose far below the default threshold. -/
def poseOnlyLowFrame : FrameSignals :=
  { pose := some { noseY := 9/10, leftShoulderY := 1/2, rightShoulderY := 1/2 },
    detections := [] }

/-- A frame with pose only, nose well above the default threshold. -/
def poseOnlyHighFrame : FrameSignals :=
  { pose := some { noseY := 1/10, leftShoulderY := 1/2, rightShoulderY := 1/2 },
    detections := [] }

/-- Witness for `posture_rule`: with the default baseline 0.22 and
shoulders at 0.5 the threshold is 0.28; a nose at 0.9 yields POSTURE and a
nose at 0.1 yields no distraction. -/
theorem posture_rule_witness :
    rawVerdict initState poseOnlyLowFrame = (true, "POSTURE") ∧
    rawVerdict initState poseOnlyHighFrame = (false, "") :=
  ⟨(posture_rule initState poseOnlyLowFrame
      { noseY := 9/10, leftShoulderY := 1/2, rightShoulderY := 1/2 } (22/100)
      (by decide) (by decide) rfl (by simp [initState])).2.1 (by norm_num),
   (posture_rule initState poseOnlyHighFrame
      { noseY := 1/10, leftShoulderY := 1/2, rightShoulderY := 1/2 } (22/100)
      (by decide) (by decide) rfl (by simp [initState])).2.2 (by norm_num)⟩

/-! ## C4: one-shot calibration -/

/-- The hysteresis step leaves calibration state as classification left it. -/
theorem processSignals_calibration_fields (s : EngineState) (f : FrameSignals)
    (t : ℚ) :
    (processSignals s f t).is_calibrating = (classify s f).2.2.is_calibrating ∧
    (processSignals s f t).baseline_dist = (classify s f).2.2.baseline_dist := by
  unfold processSignals
  exact ⟨(hysteresisUpdate_untouched _ _ _ _).2.1,
         (hysteresisUpdate_untouched _ _ _ _).1⟩

set_option maxHeartbeats 1000000 in
/-- An armed calibration is consumed by the posture branch: the flag is
cleared and the baseline becomes `(shoulderY - noseY) - 0.05` of the
current frame's pose. -/
theorem classify_consumes_calibration (s : EngineState) (f : FrameSignals)
    (p : Pose) (harm : s.is_calibrating = true)
    (hph : hasPhone f.detections = false)
    (hsm : hasStudyMaterial f.detections = false)
    (hp : f.pose = some p) :
    (classify s f).2.2.is_calibrating = false ∧
    (classify s f).2.2.baseline_dist =
      ((p.leftShoulderY + p.rightShoulderY) / 2 - p.noseY) - 5/100 := by
  rcases f with ⟨po, dets⟩
  simp only at hp
  subst hp
  refine ⟨?_, ?_⟩ <;>
    simp only [classify, hph, hsm, harm] <;> split_ifs <;> simp_all

set_option maxHeartbeats 1000000 in
/-- With the flag clear, classification never changes the baseline and
never sets the flag. -/
theorem classify_keeps_calibration (s : EngineState) (f : FrameSignals)
    (h : s.is_calibrating = false) :
    (classify s f).2.2.is_calibrating = false ∧
    (classify s f).2.2.baseline_dist = s.baseline_dist := by
  rcases f with ⟨po, dets⟩
  cases po <;> refine ⟨?_, ?_⟩ <;>
    simp only [classify] <;> split_ifs <;> simp_all

/-- Frames short-circuited before the posture branch return the state
untouched. -/
theorem classify_state_before_posture (s : EngineState) (f : FrameSignals)
    (h : hasPhone f.detections = true ∨ hasStudyMaterial f.detections = true ∨
      f.pose = none) :
    (classify s f).2.2 = s := by
  rcases f with ⟨po, dets⟩
  simp only at h
  rcases h with h | h | h
  · simp [classify, h]
  · by_cases hph : hasPhone dets
    · simp [classify, hph]
    · simp [classify, hph, h]
  · subst h
    simp only [classify]
    split_ifs <;> rfl

/-- A frame with both pose data and a phone detection, armed calibration
pending. -/
def phonePoseFrame : FrameSignals :=
  { pose := some { noseY := 3/10, leftShoulderY := 7/10, rightShoulderY := 7/10 },
    detections := [{ category := "cell phone" }] }

/-- C4 counterexample: with the calibration flag armed, the next processed
frame that has pose data does NOT always perform the recalibration — on a
frame that also carries a phone detection the flag stays set and the
baseline keeps its previous value, although the claimed formula would give
a different baseline for that pose. -/
theorem calibration_skipped_on_phone_frame :
    phonePoseFrame.pose ≠ none ∧
    (processSignals (calibrate initState) phonePoseFrame 0).is_calibrating = true ∧
    (processSignals (calibrate initState) phonePoseFrame 0).baseline_dist = 22/100 ∧
    ((7/10 + 7/10 : ℚ) / 2 - 3/10) - 5/100 ≠ 22/100 :=
  ⟨by decide, rfl, rfl, by norm_num⟩

/-- C4 (amended): after `calibrate()` arms the flag, the recalibration is
performed by the next processed frame that has pose data AND reaches the
posture branch (no phone and no study-material detection): that frame sets
`baselineOffset = (shoulderY - noseY) - 0.05`, clears the flag, and the new
baseline takes effect for that same frame's posture verdict; frames with
the flag clear never change the baseline, and armed frames that carry a
phone or study material or lack pose leave the flag armed and the baseline
unchanged — so exactly one recalibration is consumed per arm. -/
theorem calibration_one_shot (s : EngineState) (f : FrameSignals) (p : Pose)
    (t : ℚ) (harm : s.is_calibrating = true)
    (hph : hasPhone f.detections = false)
    (hsm : hasStudyMaterial f.detections = false)
    (hp : f.pose = some p) :
    ((processSignals s f t).is_calibrating = false ∧
     (processSignals s f t).baseline_dist =
       ((p.leftShoulderY + p.rightShoulderY) / 2 - p.noseY) - 5/100 ∧
     ((rawVerdict s f).1 = true ↔
       p.noseY > (p.leftShoulderY + p.rightShoulderY) / 2 -
         (((p.leftShoulderY + p.rightShoulderY) / 2 - p.noseY) - 5/100))) ∧
    (∀ s2 f2 t2, s2.is_calibrating = false →
      (processSignals s2 f2 t2).is_calibrating = false ∧
      (processSignals s2 f2 t2).baseline_dist = s2.baseline_dist) ∧
    (∀ s2 f2 t2, s2.is_calibrating = true →
      hasPhone f2.detections = true ∨ hasStudyMaterial f2.detections = true ∨
        f2.pose = none →
      (processSignals s2 f2 t2).is_calibrating = true ∧
      (processSignals s2 f2 t2).baseline_dist = s2.baseline_dist) := by
  have hb : (((p.leftShoulderY + p.rightShoulderY) / 2 - p.noseY) - 5/100 : ℚ) =
      if s.is_calibrating
      then ((p.leftShoulderY + p.rightShoulderY) / 2 - p.noseY) - 5/100
      else s.baseline_dist := by rw [harm]; simp
  obtain ⟨hbeq, hpos, hneg⟩ := classify_posture_spec s f p _ hph hsm hp hb
  obtain ⟨hc1, hc2⟩ := classify_consumes_calibration s f p harm hph hsm hp
  refine ⟨⟨?_, ?_, ?_⟩, ?_, ?_⟩
  · rw [(processSignals_calibration_fields s f t).1, hc1]
  · rw [(processSignals_calibration_fields s f t).2, hc2]
  · constructor
    · intro hv
      by_cases hn : p.noseY > (p.leftShoulderY + p.rightShoulderY) / 2 -
          (((p.leftShoulderY + p.rightShoulderY) / 2 - p.noseY) - 5/100)
      · exact hn
      · rw [hneg hn] at hv
        exact absurd hv (by decide)
    · intro hn
      rw [hpos hn]
  · intro s2 f2 t2 h2
    obtain ⟨hk1, hk2⟩ := classify_keeps_calibration s2 f2 h2
    exact ⟨(processSignals_calibration_fields s2 f2 t2).1.trans hk1,
           (processSignals_calibration_fields s2 f2 t2).2.trans hk2⟩
  · intro s2 f2 t2 h2 hcase
    have hst := classify_state_before_posture s2 f2 hcase
    refine ⟨?_, ?_⟩
    · rw [(processSignals_calibration_fields s2 f2 t2).1, hst, h2]
    · rw [(processSignals_calibration_fields s2 f2 t2).2, hst]

/-- Witness for `calibration_one_shot`: arming at the initial state and
feeding a pose-only frame with shoulders at 0.5 and nose at 0.4 sets the
baseline to 0.05 and clears the flag. -/
theorem calibration_one_shot_witness :
    (processSignals (calibrate initState) poseOnlyHighFrame 0).is_calibrating
        = false ∧
    (processSignals (calibrate initState) poseOnlyHighFrame 0).baseline_dist =
      ((1/2 + 1/2) / 2 - 1/10) - 5/100 :=
  ⟨((calibration_one_shot (calibrate initState) poseOnlyHighFrame
      { noseY := 1/10, leftShoulderY := 1/2, rightShoulderY := 1/2 } 0
      rfl (by decide) (by decide) rfl).1).1,
   ((calibration_one_shot (calibrate initState) poseOnlyHighFrame
      { noseY := 1/10, leftShoulderY := 1/2, rightShoulderY := 1/2 } 0
      rfl (by decide) (by decide) rfl).1).2.1⟩

/-! ## C5: session start/stop misuse -/

/-- C5 counterexample: the code surfaces no error for session misuse —
`stop_session` with no open session silently returns the unchanged state
and no summary (not an error value), and `start_session` while a session
is open silently replaces the open session (new start time, nothing
recorded for the replaced one). -/
theorem session_misuse_counterexample :
    initState.current_session_start = none ∧
    stop_session initState 5 = (initState, none) ∧
    (start_session initState 1).current_session_start = some 1 ∧
    (start_session (start_session initState 1) 2).current_session_start = some 2 ∧
    (start_session (start_session initState 1) 2).sessions = [] :=
  ⟨rfl, rfl, rfl, rfl, rfl⟩

/-- C5 (amended): both misuses are silently absorbed, not surfaced:
`start_session` while a session is open unconditionally replaces the open
session's start time and event-window index without recording anything,
and `stop_session` while no session is open is a no-op returning no
summary. -/
theorem session_misuse_silent (s : EngineState) (t : ℚ)
    (hopen : s.current_session_start ≠ none) :
    (start_session s t).current_session_start = some t ∧
    (start_session s t).current_session_history_index = some s.history.length ∧
    (start_session s t).sessions = s.sessions ∧
    (∀ s2 t2, s2.current_session_start = none → stop_session s2 t2 = (s2, none)) := by
  refine ⟨rfl, rfl, rfl, fun s2 t2 h2 => ?_⟩
  simp [stop_session, h2]

/-- Witness for `session_misuse_silent` with a session opened at time 1
and replaced at time 2. -/
theorem session_misuse_silent_witness :
    (start_session (start_session initState 1) 2).current_session_start
        = some 2 ∧
    stop_session initState 5 = (initState, none) :=
  ⟨(session_misuse_silent (start_session initState 1) 2 (by decide)).1,
   (session_misuse_silent (start_session initState 1) 2 (by decide)).2.2.2
     initState 5 rfl⟩

/-! ## C6: session statistics -/

/-- Frame processing never touches the open-session bookkeeping. -/
theorem processSignals_session_fields (s : EngineState) (f : FrameSignals)
    (t : ℚ) :
    (processSignals s f t).current_session_start = s.current_session_start ∧
    (processSignals s f t).current_session_history_index =
      s.current_session_history_index := by
  obtain ⟨-, -, -, -, -, -, -, -, hcs, hci⟩ := classify_untouched s f
  unfold processSignals
  exact ⟨(hysteresisUpdate_untouched _ _ _ _).2.2.1.trans hcs,
         (hysteresisUpdate_untouched _ _ _ _).2.2.2.1.trans hci⟩

/-- Frame processing only appends to the history. -/
theorem processSignals_history_append (s : EngineState) (f : FrameSignals)
    (t : ℚ) :
    ∃ l, (processSignals s f t).history = s.history ++ l := by
  obtain ⟨-, -, -, hh, -, -, -, -, -, -⟩ := classify_untouched s f
  unfold processSignals
  rcases hysteresisUpdate_history (classify s f).2.2 (classify s f).1
      (classify s f).2.1 t with h | ⟨e, h⟩
  · exact ⟨[], by rw [h, hh, List.append_nil]⟩
  · exact ⟨[e], by rw [h, hh]⟩

/-- Over a whole run, session bookkeeping is preserved and history only
grows. -/
theorem runFrames_session_fields (fs : List (FrameSignals × ℚ)) :
    ∀ s : EngineState,
      (runFrames s fs).current_session_start = s.current_session_start ∧
      (runFrames s fs).current_session_history_index =
        s.current_session_history_index ∧
      ∃ l, (runFrames s fs).history = s.history ++ l := by
  induction fs with
  | nil => exact fun s => ⟨rfl, rfl, [], by simp [runFrames]⟩
  | cons p rest ih =>
    intro s
    have hstep : runFrames s (p :: rest) =
        runFrames (processSignals s p.1 p.2) rest := rfl
    rw [hstep]
    obtain ⟨h1, h2, l, h3⟩ := ih (processSignals s p.1 p.2)
    obtain ⟨g1, g2⟩ := processSignals_session_fields s p.1 p.2
    obtain ⟨l0, g3⟩ := processSignals_history_append s p.1 p.2
    exact ⟨h1.trans g1, h2.trans g2, l0 ++ l,
           by rw [h3, g3, List.append_assoc]⟩

/-- State after 16 consecutive phone frames processed at time 10: the
distraction that began at time 10 is still open and the history is empty. -/
def openEventState : EngineState :=
  runFrames initState (List.replicate 16 (phoneFrame, 10))

/-- C6 counterexample: start a session at t=100 while a distraction opened
at t=10 is still in progress, process one clean frame at t=110 (closing
that event), and stop at t=120: the summary counts 1 event, yet no closed
event has startedAt inside the window [100, 120] — membership is by
history index, not by the time window the claim states. -/
theorem session_stats_counterexample :
    openEventState.distraction_start_time = some 10 ∧
    ((stop_session (processSignals (start_session openEventState 100)
        emptyFrame 110) 120).2.map fun sm => sm.distraction_count) = some 1 ∧
    ((stop_session (processSignals (start_session openEventState 100)
        emptyFrame 110) 120).2.map fun sm => sm.start_time) = some 100 ∧
    ((stop_session (processSignals (start_session openEventState 100)
        emptyFrame 110) 120).2.map fun sm => sm.end_time) = some 120 ∧
    ((processSignals (start_session openEventState 100) emptyFrame 110).history.filter
        fun e => decide (100 ≤ e.timestamp) && decide (e.timestamp ≤ 120)).length
      = 0 := by
  have hhist : (processSignals (start_session openEventState 100)
      emptyFrame 110).history =
      [{ timestamp := ⌊(10 : ℚ)⌋, reason := "PHONE",
         duration := (110 : ℚ) - 10 }] := rfl
  have hts : ⌊(10 : ℚ)⌋ = 10 := by norm_num
  refine ⟨rfl, rfl, ?_, ?_, ?_⟩
  · show some ⌊(100 : ℚ)⌋ = some 100
    norm_num
  · show some ⌊(120 : ℚ)⌋ = some 120
    norm_num
  · rw [hhist]
    simp [hts]

/-- C6 (amended): stopping a session opened by `start_session` at `t0`,
after processing any sequence of frames, returns a summary whose
`distraction_count` is the number of events appended to the history since
the session started and whose `total_distraction_time` is the sum of those
events' durations — the index window remembered at start, not a
time-window membership rule on startedAt. -/
theorem session_stats_index_window (s : EngineState) (t0 t1 : ℚ)
    (fs : List (FrameSignals × ℚ)) :
    ∃ newEvents : List Event,
      (runFrames (start_session s t0) fs).history = s.history ++ newEvents ∧
      (stop_session (runFrames (start_session s t0) fs) t1).2 =
        some { start_time := ⌊t0⌋, end_time := ⌊t1⌋, duration := t1 - t0,
               distraction_count := newEvents.length,
               total_distraction_time := (newEvents.map fun e => e.duration).sum,
               avg_focus_score := 100 } := by
  obtain ⟨h1, h2, l, h3⟩ := runFrames_session_fields fs (start_session s t0)
  have h1a : (runFrames (start_session s t0) fs).current_session_start
      = some t0 := h1
  have h2a : (runFrames (start_session s t0) fs).current_session_history_index
      = some s.history.length := h2
  have h3a : (runFrames (start_session s t0) fs).history = s.history ++ l := h3
  refine ⟨l, h3a, ?_⟩
  simp only [stop_session, h1a, h2a, h3a, List.drop_left]

/-! ## C8: scenario of 20 distracted frames then 1 focused frame -/

/-- Frame `i` (0-based) of the scenario: 20 phone frames, then one frame
with no signals. -/
def scenarioFrame (i : ℕ) : FrameSignals :=
  if i < 20 then phoneFrame else emptyFrame

/-- Engine state after the first `n` frames of the scenario, frame `i`
processed at time `i`. -/
def scenarioState (n : ℕ) : EngineState :=
  runFrames initState ((List.range n).map fun i => (scenarioFrame i, (i : ℚ)))

/-- Unfolding one scenario step. -/
theorem scenario_succ (n : ℕ) :
    scenarioState (n + 1) =
      processSignals (scenarioState n) (scenarioFrame n) (n : ℚ) := by
  unfold scenarioState runFrames
  rw [List.range_succ, List.map_append, List.foldl_append]
  rfl

/-- The stable status over the whole scenario: Distracted exactly on
frames 16 through 20. -/
theorem scenario_status_fact : ∀ k, k ≤ 21 →
    ((scenarioState k).status = "DISTRACTED" ↔ (16 ≤ k ∧ k ≤ 20)) := by decide

/-- During the first 15 scenario frames the score never moves off 100. -/
theorem scenario_score_le15 : ∀ n, n ≤ 15 → (scenarioState n).focus_score = 100 := by
  intro n
  induction n with
  | zero => intro _; rfl
  | succ k ih =>
    intro hk
    have hsc := ih (Nat.le_of_succ_le hk)
    have hstat : (scenarioState (k + 1)).status ≠ "DISTRACTED" := by
      intro hd
      have := (scenario_status_fact (k + 1) (by omega)).mp hd
      omega
    have hstep := scenario_succ k
    rcases processSignals_score_step (scenarioState k) (scenarioFrame k) (k : ℚ)
      with ⟨hd, -⟩ | ⟨-, hs⟩
    · rw [← hstep] at hd
      exact absurd hd hstat
    · rw [← hstep] at hs
      rw [hs, hsc]
      norm_num

/-- After the 20th scenario frame (5 decrements from 100) the score is
97.5. -/
theorem scenario_score_20 : (scenarioState 20).focus_score = 195/2 := by
  have hstep : ∀ k, 16 ≤ k + 1 → k + 1 ≤ 20 →
      (scenarioState (k + 1)).focus_score =
        max 0 ((scenarioState k).focus_score - 1/2) := by
    intro k h1 h2
    have hstat : (scenarioState (k + 1)).status = "DISTRACTED" :=
      (scenario_status_fact (k + 1) (by omega)).mpr ⟨h1, h2⟩
    have heq := scenario_succ k
    rcases processSignals_score_step (scenarioState k) (scenarioFrame k) (k : ℚ)
      with ⟨-, hs⟩ | ⟨hf, -⟩
    · rw [← heq] at hs
      exact hs
    · rw [← heq] at hf
      rw [hf] at hstat
      exact absurd hstat (by decide)
  have h15 := scenario_score_le15 15 le_rfl
  have h16 := hstep 15 (by omega) (by omega)
  have h17 := hstep 16 (by omega) (by omega)
  have h18 := hstep 17 (by omega) (by omega)
  have h19 := hstep 18 (by omega) (by omega)
  have h20 := hstep 19 (by omega) (by omega)
  rw [h20, h19, h18, h17, h16, h15]
  norm_num [max_def]

/-- C8 counterexample: after the 15th consecutive distracted frame of the
scenario the focus score is exactly 100, not approximately 92.5 — the
score has not moved at all, because the stable status is still Focused for
the first 15 frames. -/
theorem scenario_score_mismatch :
    (scenarioState 15).focus_score = 100 ∧
    (scenarioState 15).focus_score - 185/2 = 15/2 ∧
    ¬ (scenarioState 15).focus_score = 185/2 := by
  have h := scenario_score_le15 15 le_rfl
  exact ⟨h, by rw [h]; norm_num, by rw [h]; norm_num⟩

/-- C8 (amended): over raw verdicts `[distracted]×20 ++ [focused]×1` the
stable status transitions Focused→Distracted exactly once, at frame 16,
and back to Focused at frame 21; the score after the 15th distracted frame
is still 100 (it only starts decreasing at frame 16), reaching 97.5 after
frame 20. -/
theorem scenario_20_distracted_then_1_focused :
    (∀ k, k ≤ 21 →
      ((scenarioState k).status = "DISTRACTED" ↔ (16 ≤ k ∧ k ≤ 20))) ∧
    (scenarioState 15).focus_score = 100 ∧
    (scenarioState 20).focus_score = 195/2 :=
  ⟨scenario_status_fact, scenario_score_le15 15 le_rfl, scenario_score_20⟩

/-! ## C9: distraction event lifecycle -/

/-- Definitional unfolding of a processed frame. -/
theorem processSignals_def (s : EngineState) (f : FrameSignals) (t : ℚ) :
    processSignals s f t =
      hysteresisUpdate (classify s f).2.2 (classify s f).1 (classify s f).2.1 t :=
  rfl

set_option maxHeartbeats 4000000 in
/-- If a step appended an event, the step was a close edge: the state was
distracted with an open start time `t0`, the step cleared it, and the
appended event's duration is `now - t0`. -/
theorem hysteresisUpdate_append_char (s : EngineState) (b : Bool) (r : String)
    (t : ℚ) : ∀ e, (hysteresisUpdate s b r t).history = s.history ++ [e] →
    s.is_currently_distracted = true ∧
    (hysteresisUpdate s b r t).is_currently_distracted = false ∧
    ∃ t0, s.distraction_start_time = some t0 ∧ e.duration = t - t0 := by
  rcases s with ⟨st, sc, df, bd, ic, hi, ss, icd, dst, dr, cs, ci⟩
  cases b <;> cases icd <;> cases dst <;>
    simp only [hysteresisUpdate] <;> split_ifs <;> intro e he <;> simp_all <;>
    subst he <;> rfl

set_option maxHeartbeats 4000000 in
/-- If a step turned the open-event flag on, it was a start edge: it
recorded the current time as the start, the counter exceeds the threshold,
and nothing was appended. -/
theorem hysteresisUpdate_open_char (s : EngineState) (b : Bool) (r : String)
    (t : ℚ) (h1 : s.is_currently_distracted = false)
    (h2 : (hysteresisUpdate s b r t).is_currently_distracted = true) :
    (hysteresisUpdate s b r t).distraction_start_time = some t ∧
    (hysteresisUpdate s b r t).distracted_frames > DISTRACTION_THRESHOLD ∧
    (hysteresisUpdate s b r t).history = s.history := by
  rcases s with ⟨st, sc, df, bd, ic, hi, ss, icd, dst, dr, cs, ci⟩
  subst h1
  cases b <;> cases dst <;>
    simp only [hysteresisUpdate] at h2 ⊢ <;> split_ifs at h2 ⊢ <;> simp_all

set_option maxHeartbeats 4000000 in
/-- A close edge with no recorded start time appends nothing (the
defensive no-op). -/
theorem hysteresisUpdate_noop_char (s : EngineState) (b : Bool) (r : String)
    (t : ℚ) (h1 : s.is_currently_distracted = true)
    (h2 : s.distraction_start_time = none) :
    (hysteresisUpdate s b r t).history = s.history := by
  rcases s with ⟨st, sc, df, bd, ic, hi, ss, icd, dst, dr, cs, ci⟩
  subst h1
  subst h2
  cases b <;> simp only [hysteresisUpdate] <;> split_ifs <;> rfl

set_option maxHeartbeats 4000000 in
set_option maxRecDepth 8000 in
/-- The open-event flag and the stored start time stay synchronized, which
is what makes "at most one open event" a state invariant. -/
theorem hysteresisUpdate_sync (s : EngineState) (b : Bool) (r : String)
    (t : ℚ)
    (h : s.is_currently_distracted = true ↔ s.distraction_start_time ≠ none) :
    ((hysteresisUpdate s b r t).is_currently_distracted = true ↔
      (hysteresisUpdate s b r t).distraction_start_time ≠ none) := by
  rcases s with ⟨st, sc, df, bd, ic, hi, ss, icd, dst, dr, cs, ci⟩
  cases icd with
  | false =>
    cases dst with
    | none =>
      cases b <;> simp only [hysteresisUpdate] <;> split_ifs <;> simp
    | some v => exact absurd (h.mpr (by simp)) (by simp)
  | true =>
    cases dst with
    | none => exact absurd rfl (h.mp rfl)
    | some v =>
      cases b <;> simp only [hysteresisUpdate] <;> split_ifs <;> simp

/-- C9: per processed frame, the history gains at most one event; an event
is appended (closed, with duration `now - startedAt`, non-negative under
monotone time) only on a Distracted→Focused edge with an open event; the
open-event slot is filled only on a Focused→Distracted edge (recording the
current time, with the counter past the threshold, appending nothing); an
end edge seen with no open event appends nothing; and the open-flag /
start-time synchronization invariant is preserved, so at most one event is
open at a time. -/
theorem recorder_event_lifecycle (s : EngineState) (f : FrameSignals) (t : ℚ) :
    ((processSignals s f t).history = s.history ∨
      ∃ e, (processSignals s f t).history = s.history ++ [e]) ∧
    (∀ e, (processSignals s f t).history = s.history ++ [e] →
      s.is_currently_distracted = true ∧
      (processSignals s f t).is_currently_distracted = false ∧
      ∃ t0, s.distraction_start_time = some t0 ∧ e.duration = t - t0 ∧
        (t0 ≤ t → 0 ≤ e.duration)) ∧
    (s.is_currently_distracted = false →
      (processSignals s f t).is_currently_distracted = true →
      (processSignals s f t).distraction_start_time = some t ∧
      (processSignals s f t).distracted_frames > DISTRACTION_THRESHOLD ∧
      (processSignals s f t).history = s.history) ∧
    (s.is_currently_distracted = true → s.distraction_start_time = none →
      (processSignals s f t).history = s.history) ∧
    ((s.is_currently_distracted = true ↔ s.distraction_start_time ≠ none) →
      ((processSignals s f t).is_currently_distracted = true ↔
        (processSignals s f t).distraction_start_time ≠ none)) := by
  obtain ⟨-, -, -, hh, -, hicd, hdst, -, -, -⟩ := classify_untouched s f
  rw [processSignals_def, ← hh, ← hicd, ← hdst]
  refine ⟨hysteresisUpdate_history _ _ _ _, ?_, ?_, ?_, ?_⟩
  · intro e he
    obtain ⟨a1, a2, t0, a3, a4⟩ := hysteresisUpdate_append_char _ _ _ _ e he
    exact ⟨a1, a2, t0, a3, a4, fun hle => by rw [a4]; linarith⟩
  · exact fun h1 h2 => hysteresisUpdate_open_char _ _ _ _ h1 h2
  · exact fun h1 h2 => hysteresisUpdate_noop_char _ _ _ _ h1 h2
  · exact fun h => hysteresisUpdate_sync _ _ _ _ h

/-- State after 15 consecutive phone frames at time 10: still Focused, no
open event, counter at 15. -/
def fifteenState : EngineState :=
  runFrames initState (List.replicate 15 (phoneFrame, 10))

/-- The event closed by the clean frame at t=110 after `openEventState`. -/
def closedEvent : Event :=
  { timestamp := ⌊(10 : ℚ)⌋, reason := "PHONE", duration := (110 : ℚ) - 10 }

/-- Witness for `recorder_event_lifecycle`: the clean frame at t=110
closes the event opened at t=10 (duration 100), and the 16th phone frame
after `fifteenState` opens an event at t=11 without touching history. -/
theorem recorder_event_lifecycle_witness :
    (openEventState.is_currently_distracted = true ∧
      (processSignals openEventState emptyFrame 110).is_currently_distracted
          = false ∧
      ∃ t0, openEventState.distraction_start_time = some t0 ∧
        closedEvent.duration = 110 - t0 ∧
        (t0 ≤ 110 → 0 ≤ closedEvent.duration)) ∧
    ((processSignals fifteenState phoneFrame 11).distraction_start_time
        = some 11 ∧
      (processSignals fifteenState phoneFrame 11).distracted_frames >
        DISTRACTION_THRESHOLD ∧
      (processSignals fifteenState phoneFrame 11).history =
        fifteenState.history) :=
  ⟨(recorder_event_lifecycle openEventState emptyFrame 110).2.1 closedEvent rfl,
   (recorder_event_lifecycle fifteenState phoneFrame 11).2.2.1 rfl rfl⟩

/-- Witness for `scenario_20_distracted_then_1_focused` at frame 16. -/
theorem scenario_20_distracted_witness :
    (scenarioState 16).status = "DISTRACTED" :=
  (scenario_20_distracted_then_1_focused.1 16 (by norm_num)).mpr
    ⟨by norm_num, by norm_num⟩
